import Mathlib

/-!
Shallow embedding of the IA-32 instruction decoder in `src/lib/disasm.ts`
(the `Disassembler` class and its operand/instruction data model), together
with theorems settling the specification claims about it.

The byte reader is modelled as a list of pending bytes; reading past the end
fails with a truncation error.  JavaScript numeric behaviour that the decoder
relies on (the 32-bit signed `<<` operator, `switch` on negative scrutinees,
loop bounds such as `index < size - 1`) is modelled explicitly where it
matters and noted in comments.
-/

namespace Disasm

/-- Operand and address widths, `enum Size` in the source (Int8 = 0, Int16 = 1, Int32 = 2). -/
inductive Size where
  | Int8
  | Int16
  | Int32
  deriving DecidableEq, Repr

/-- The numeric value the TypeScript enum assigns to a `Size`. -/
def Size.toNat : Size → Nat
  | .Int8 => 0
  | .Int16 => 1
  | .Int32 => 2

/-- Segment registers, `enum Segment`: numeric values as in the source. -/
abbrev Segment := Nat

def Segment.ES : Segment := 0

def Segment.CS : Segment := 1

def Segment.SS : Segment := 2

def Segment.DS : Segment := 3

def Segment.FS : Segment := 4

def Segment.GS : Segment := 5

def Segment.None : Segment := 6

/-- Registers, `enum Register`: numeric values as in the source
(AL = 0, AX = 1, EAX = 2, ..., CR0 = 24, DR0 = 28, Invalid = 36). -/
abbrev Register := Nat

def Register.AL : Register := 0

def Register.AX : Register := 1

def Register.EAX : Register := 2

def Register.CL : Register := 3

def Register.CX : Register := 4

def Register.ECX : Register := 5

def Register.DL : Register := 6

def Register.DX : Register := 7

def Register.EDX : Register := 8

def Register.BL : Register := 9

def Register.BX : Register := 10

def Register.EBX : Register := 11

def Register.AH : Register := 12

def Register.SP : Register := 13

def Register.ESP : Register := 14

def Register.CH : Register := 15

def Register.BP : Register := 16

def Register.EBP : Register := 17

def Register.DH : Register := 18

def Register.SI : Register := 19

def Register.ESI : Register := 20

def Register.BH : Register := 21

def Register.DI : Register := 22

def Register.EDI : Register := 23

def Register.CR0 : Register := 24

def Register.DR0 : Register := 28

def Register.Invalid : Register := 36

/-- Mnemonics, `enum OpCode` in src/lib/disasm.ts. -/
inductive OpCode where
  | Invalid
  | AAA
  | AAD
  | AAM
  | AAS
  | ADD
  | ADC
  | AND
  | ARPL
  | BOUND
  | BSF
  | BSR
  | BT
  | BTC
  | BTR
  | BTS
  | CALL
  | CBW
  | CLC
  | CLD
  | CLI
  | CLTS
  | CMC
  | CMP
  | CMPS
  | CWD
  | DAA
  | DAS
  | DEC
  | DIV
  | ENTER
  | HLT
  | IDIV
  | INC
  | IMUL
  | IN
  | INS
  | INT
  | INTO
  | IRET
  | JCXZ
  | JB
  | JBE
  | JL
  | JLE
  | JO
  | JMP
  | JNB
  | JNBE
  | JNL
  | JNLE
  | JNO
  | JNP
  | JNS
  | JNZ
  | JP
  | JS
  | JZ
  | LAHF
  | LAR
  | LDS
  | LEA
  | LEAVE
  | LES
  | LFS
  | LGDT
  | LGS
  | LIDT
  | LMSW
  | LODS
  | LOOP
  | LOOPE
  | LOOPNE
  | LSL
  | LSS
  | LTR
  | MOV
  | MOVS
  | MOVSX
  | MOVZX
  | MUL
  | NEG
  | NOP
  | NOT
  | OR
  | OUT
  | OUTS
  | POP
  | POPA
  | POPF
  | PUSH
  | PUSHA
  | PUSHF
  | RCL
  | RCR
  | RET
  | ROL
  | ROR
  | SAHF
  | SAR
  | SBB
  | SCAS
  | SETB
  | SETBE
  | SETL
  | SETLE
  | SETO
  | SETNB
  | SETNBE
  | SETNL
  | SETNLE
  | SETNO
  | SETNP
  | SETNS
  | SETNZ
  | SETP
  | SETS
  | SETZ
  | SGDT
  | SHL
  | SHLD
  | SHR
  | SHRD
  | SIDT
  | SLDT
  | SMSW
  | STC
  | STD
  | STI
  | STOS
  | SUB
  | TEST
  | VERR
  | VERW
  | WAIT
  | XCHG
  | XLAT
  | XOR
  deriving DecidableEq, Repr

/-- Repeat prefixes, `enum RepeatType`. -/
inductive RepeatType where
  | None
  | Equal
  | NotEqual
  deriving DecidableEq, Repr

/-- The runtime tag of an operand, `enum OperandType`. -/
inductive OperandType where
  | Register
  | Immediate
  | Segment
  | Indirect
  | Addition
  | Scale
  | Repeat
  | Call
  deriving DecidableEq, Repr

/-- Bit flags steering ModR/M decoding, `enum OperandFlags`. -/
def OperandFlags.None : Nat := 0x00

def OperandFlags.MustBeMemory : Nat := 0x01

def OperandFlags.DontDereference : Nat := 0x02

def OperandFlags.Segment : Nat := 0x04

def OperandFlags.MustBeRegister : Nat := 0x08

def OperandFlags.ControlRegister : Nat := 0x10

def OperandFlags.DebugRegister : Nat := 0x20

/-- `Disassembler.flagSet`: `(value & flag) == flag`. -/
def flagSet (value flag : Nat) : Bool := value &&& flag == flag

/-- Normalise an integer to the JavaScript 32-bit signed range, as the `<<` operator does. -/
def toInt32 (n : Int) : Int :=
  let m := n % 4294967296
  if m < 2147483648 then m else m - 4294967296

/-- JavaScript `x << (8 * index)`, the only shifts `readImmediate` performs. -/
def jsShl (x : Int) (index : Nat) : Int := toInt32 (x * 2 ^ (8 * index))

/-- The `Operand` class hierarchy as a sum: one constructor per subclass
(`RegisterOperand`, `SegmentOperand`, `ImmediateOperand`, `CallOperand`,
`AdditionOperand`, `IndirectOperand`, `ScaleOperand`).  `RepeatOperand` is
never produced by the decoder and is omitted. -/
inductive Operand where
  | register (reg : Register)
  | segment (seg : Segment)
  | immediate (value : Int) (size : Size)
  | call (segmentValue : Int) (offsetValue : Int) (size : Size)
  | addition (left : Operand) (right : Operand)
  | indirect (operand : Operand) (size : Size) (segment : Segment)
  | scale (index : Operand) (scale : Nat)
  deriving DecidableEq, Repr

/-- The `type` tag of an operand. -/
def Operand.type : Operand → OperandType
  | .register _ => .Register
  | .segment _ => .Segment
  | .immediate _ _ => .Immediate
  | .call _ _ _ => .Call
  | .addition _ _ => .Addition
  | .indirect _ _ _ => .Indirect
  | .scale _ _ => .Scale

/-- `Operand.add`: build an `AdditionOperand`. -/
def Operand.add (a other : Operand) : Operand := .addition a other

/-- `Operand.scaleBy`: build a `ScaleOperand`. -/
def Operand.scaleBy (a : Operand) (scale : Nat) : Operand := .scale a scale

/-- `RegisterOperand.getRegister`: range check (0 to `Register.Invalid` = 36 inclusive)
then flyweight lookup; only the value behaviour is modelled. -/
def RegisterOperand.getRegister (reg : Int) : Except String Operand :=
  if reg < 0 ∨ reg > 36 then .error "invalid register"
  else .ok (.register reg.toNat)

/-- `SegmentOperand.getSegment`: range check (below `Segment.None` = 6) then flyweight lookup. -/
def SegmentOperand.getSegment (seg : Int) : Except String Operand :=
  if seg < 0 ∨ seg ≥ 6 then .error "invalid segment register"
  else .ok (.segment seg.toNat)

/-- The immutable `Instruction` produced by a decode. -/
structure Instruction where
  opCode : OpCode
  isLocked : Bool
  isNear : Bool
  repeatType : RepeatType
  operand1 : Option Operand
  operand2 : Option Operand
  operand3 : Option Operand
  deriving DecidableEq, Repr

/-- The mutable fields of `Disassembler` that `reset` initialises for each decode,
with the byte reader modelled as the list of bytes not yet consumed. -/
structure DecodeState where
  input : List Nat
  operandSize : Size
  addressMode : Size
  addressModeOverridden : Bool
  operandSizeOverridden : Bool
  segmentOverride : Segment
  modrm : Nat
  readModrm : Bool
  opCode : OpCode
  isLocked : Bool
  repeatType : RepeatType
  isNear : Bool
  operandCount : Nat
  operand1 : Option Operand
  operand2 : Option Operand
  operand3 : Option Operand
  deriving Repr

/-- The decode monad: state threading plus decode failure (`LayoutError` messages). -/
abbrev DecodeM (α : Type) : Type := StateT DecodeState (Except String) α

def liftE {α : Type} (x : Except String α) : DecodeM α := liftM x

/-- `IByteReader.read`: yield the next byte; an exhausted source is a truncation failure. -/
def readByte : DecodeM Nat := do
  let s ← get
  match s.input with
  | [] => throw "truncated"
  | b :: rest =>
    set { s with input := rest }
    pure b

/-- The loop of `readImmediate`: `for (index = 0; index < size - 1; index++)
value += read() << (8 * index)`.  Called with the iteration count; returns the
accumulated value and the final `index`. -/
def readImmediateLoop : Nat → Nat → Int → DecodeM (Int × Nat)
  | 0, index, value => pure (value, index)
  | n + 1, index, value => do
    let b ← readByte
    readImmediateLoop n (index + 1) (value + jsShl (Int.ofNat b) index)

/-- `Disassembler.readImmediate`.  The JavaScript loop bound `index < size - 1`
uses the enum value of `size` (Int8 = 0, Int16 = 1, Int32 = 2), giving
`max (size - 1) 0` iterations, which Nat subtraction reproduces.  The signed
branch adds `(lastByte & ~0x80) << (8 * index)` and negates the whole
accumulated value when bit 7 of the last byte is set. -/
def readImmediate (size : Size) (isSigned : Bool) : DecodeM Int := do
  let (value, index) ← readImmediateLoop (size.toNat - 1) 0 0
  let lastByte ← readByte
  if isSigned then
    let value := value + jsShl (Int.ofNat (lastByte &&& 0xffffff7f)) index
    if lastByte &&& 0x80 ≠ 0 then
      pure (-value)
    else
      pure value
  else
    pure (value + jsShl (Int.ofNat lastByte) index)

/-- `Disassembler.ensureModrm`: read the ModR/M byte on first demand and cache it. -/
def ensureModrm : DecodeM Nat := do
  let s ← get
  if s.readModrm then
    pure s.modrm
  else do
    let b ← readByte
    modify fun st => { st with modrm := b, readModrm := true }
    pure b

/-- `Disassembler.decodeOperandSize`: odd opcode index selects the current operand size,
even selects Int8. -/
def decodeOperandSize (index : Nat) : DecodeM Size := do
  if flagSet index 0x1 then pure (← get).operandSize else pure Size.Int8

/-- `Disassembler.decodeRegister`: `getRegister(index * 3 + operandSize)`. -/
def decodeRegister (index : Nat) (operandSize : Size) : Except String Operand :=
  RegisterOperand.getRegister (Int.ofNat (index * 3 + operandSize.toNat))

/-- `Disassembler.register`. -/
def register (reg : Register) : Except String Operand :=
  RegisterOperand.getRegister (Int.ofNat reg)

/-- `Disassembler.displacement`: a signed immediate of the given size. -/
def displacement (displacementSize : Size) : DecodeM Operand := do
  pure (.immediate (← readImmediate displacementSize true) displacementSize)

/-- `Disassembler.immediate`: an unsigned immediate of the given size. -/
def immediate (immediateSize : Size) : DecodeM Operand := do
  pure (.immediate (← readImmediate immediateSize false) immediateSize)

/-- `Disassembler.literal`: a constant Int8 immediate. -/
def literal (value : Int) : Operand := .immediate value Size.Int8

/-- `Disassembler.sib`.  A scaled-index operand is built only when `index != 4`
and the scale field is nonzero.  For `base == 5` the source switches on the
two-bit scale field with cases `0x1`, `0x2`, `0x4` and a default shared with
`0x8`: scale 1 reads a 32-bit displacement and drops the base operand, scale 2
reads an 8-bit displacement keeping the base, and scales 0 and 3 reach the
default and throw (the `0x4` arm is unreachable since the field is two bits). -/
def sib (operandSize : Size) : DecodeM Operand := do
  let sibByte ← readByte
  let scale := (sibByte >>> 6) &&& 0x3
  let index := (sibByte >>> 3) &&& 0x7
  let base := sibByte &&& 0x7
  let scaleValue := 1 <<< scale
  let scaleOperand : Option Operand ←
    if index ≠ 0x4 ∧ scale > 0 then do
      pure (some ((← liftE (decodeRegister index operandSize)).scaleBy scaleValue))
    else
      pure none
  let baseOperand ← liftE (decodeRegister base operandSize)
  if base ≠ 0x5 then
    match scaleOperand with
    | some so => pure (baseOperand.add so)
    | none => pure baseOperand
  else
    match scale with
    | 0x1 => do
      let displacementOperand ← displacement Size.Int32
      match scaleOperand with
      | some so => pure (so.add displacementOperand)
      | none => pure displacementOperand
    | 0x2 => do
      let displacementOperand ← displacement Size.Int8
      match scaleOperand with
      | some so => pure (so.add (baseOperand.add displacementOperand))
      | none => pure (baseOperand.add displacementOperand)
    | _ => throw "invalid sib byte"

/-- `Disassembler.nextOperand`: append an operand to the next free slot.  The first
(destination) slot rejects a plain register operand when a LOCK prefix is active. -/
def nextOperand (operand : Operand) : DecodeM Unit := do
  modify fun st => { st with operandCount := st.operandCount + 1 }
  let s ← get
  match s.operandCount with
  | 1 =>
    if s.isLocked ∧ operand.type = OperandType.Register then
      throw "invalid destination"
    else
      set { s with operand1 := some operand }
  | 2 => set { s with operand2 := some operand }
  | 3 => set { s with operand3 := some operand }
  | _ => throw "invalid number of arguments"

/-- `Disassembler.segmentOperand`. -/
def segmentOperand (seg : Nat) : DecodeM Unit := do
  nextOperand (← liftE (SegmentOperand.getSegment (Int.ofNat seg)))

/-- `Disassembler.registerOperand`. -/
def registerOperand (reg : Register) : DecodeM Unit := do
  nextOperand (← liftE (register reg))

/-- `Disassembler.encodedRegisterOperand`. -/
def encodedRegisterOperand (index : Nat) (operandSize : Size) : DecodeM Unit := do
  nextOperand (← liftE (decodeRegister index operandSize))

/-- `Disassembler.regOperand`: decode the ModR/M `reg` field as a segment, control,
debug or general-purpose register according to the flags. -/
def regOperand (operandSize : Size) (flags : Nat) : DecodeM Unit := do
  let modrm ← ensureModrm
  let reg := (modrm >>> 3) &&& 0x7
  if flagSet flags OperandFlags.Segment then
    segmentOperand reg
  else if flagSet flags OperandFlags.ControlRegister then
    if reg > 3 then
      throw "invalid control register"
    else
      registerOperand (Register.CR0 + reg)
  else if flagSet flags OperandFlags.DebugRegister then
    registerOperand (Register.DR0 + reg)
  else
    encodedRegisterOperand reg operandSize

/-- `Disassembler.modrmOperand`: decode the ModR/M `mod`/`rm` fields into a register
or effective-address operand under the current address size, appending mod-dependent
displacements, and wrap in an `Indirect` of the instance operand size and segment
override unless `DontDereference` is set. -/
def modrmOperand (operandSize : Size) (flags : Nat) : DecodeM Unit := do
  let modrm ← ensureModrm
  let mod := modrm >>> 6
  let rm := modrm &&& 0x7
  if mod = 0x3 ∨ flagSet flags OperandFlags.MustBeRegister then
    if flagSet flags OperandFlags.MustBeMemory then
      throw "expected memory location"
    else
      nextOperand (← liftE (decodeRegister rm operandSize))
  else do
    let addressMode := (← get).addressMode
    let result ←
      if addressMode = Size.Int16 then
        match rm with
        | 0x0 => do pure ((← liftE (register Register.BX)).add (← liftE (register Register.SI)))
        | 0x1 => do pure ((← liftE (register Register.BX)).add (← liftE (register Register.DI)))
        | 0x2 => do pure ((← liftE (register Register.BP)).add (← liftE (register Register.SI)))
        | 0x3 => do pure ((← liftE (register Register.BP)).add (← liftE (register Register.DI)))
        | 0x4 => liftE (register Register.SI)
        | 0x5 => liftE (register Register.DI)
        | 0x6 =>
          if mod = 0x0 then displacement addressMode
          else liftE (register Register.BP)
        | _ => liftE (register Register.BX)
      else
        if rm = 0x4 then sib operandSize
        else if rm = 0x5 ∧ mod = 0x0 then displacement addressMode
        else liftE (decodeRegister rm operandSize)
    let result ←
      match mod with
      | 0x1 => do pure (result.add (← displacement Size.Int8))
      | 0x2 => do pure (result.add (← displacement (← get).addressMode))
      | _ => pure result
    let s ← get
    nextOperand (if flagSet flags OperandFlags.DontDereference then result
                 else .indirect result s.operandSize s.segmentOverride)

/-- `Disassembler.esdiOperand`: `[DI]` with segment ES. -/
def esdiOperand (operandSize : Size) : DecodeM Unit := do
  nextOperand (.indirect (← liftE (register Register.DI)) operandSize Segment.ES)

/-- `Disassembler.dssiOperand`: `[SI]` with segment DS. -/
def dssiOperand (operandSize : Size) : DecodeM Unit := do
  nextOperand (.indirect (← liftE (register Register.SI)) operandSize Segment.DS)

/-- `Disassembler.literalOperand`. -/
def literalOperand (value : Int) : DecodeM Unit := nextOperand (literal value)

/-- `Disassembler.immediateOperand`. -/
def immediateOperand (operandSize : Size) : DecodeM Unit := do
  nextOperand (← immediate operandSize)

/-- `Disassembler.displacementOperand`. -/
def displacementOperand (operandSize : Size) : DecodeM Unit := do
  nextOperand (← displacement operandSize)

/-- `Disassembler.offsetOperand`: an absolute offset of address size, dereferenced. -/
def offsetOperand (operandSize : Size) : DecodeM Unit := do
  let s ← get
  nextOperand (.indirect (← immediate s.addressMode) operandSize s.segmentOverride)

/-- `Disassembler.callOperand`: far-pointer or relative call target.  Without the
`Segment` flag the numeric segment override value is stored as the segment part. -/
def callOperand (flags : Nat) : DecodeM Unit := do
  let segmentValue : Int ←
    if flagSet flags OperandFlags.Segment then
      readImmediate Size.Int16 false
    else do
      pure (Int.ofNat (← get).segmentOverride)
  let offsetValue ← readImmediate (← get).addressMode false
  nextOperand (.call segmentValue offsetValue (← get).addressMode)

/-- `Disassembler.arithmeticOperands`.  The source switches on `index - 0x1` in
JavaScript arithmetic with cases `0x0`, `0x2`, `0x4`; for even `index` (0, 2, 4)
the scrutinee is -1, 1 or 3 and falls to the default, which throws. -/
def arithmeticOperands (index : Nat) : DecodeM Unit := do
  let operandSize ← decodeOperandSize index
  if index = 0x1 then do
    modrmOperand operandSize OperandFlags.None
    regOperand operandSize OperandFlags.None
  else if index = 0x3 then do
    regOperand operandSize OperandFlags.None
    modrmOperand operandSize OperandFlags.None
  else if index = 0x5 then do
    encodedRegisterOperand 0 operandSize
    immediateOperand operandSize
  else
    throw "unexpected opcode"

/-- `Disassembler.segmentOverride`: a second segment override of any kind throws. -/
def segmentOverride (segment : Segment) : DecodeM Unit := do
  if (← get).segmentOverride ≠ Segment.None then
    throw "invalid segment override"
  modify fun st => { st with segmentOverride := segment }

/-- `Disassembler.addressModeOverride`: toggle the address size, at most once. -/
def addressModeOverride : DecodeM Unit := do
  if (← get).addressModeOverridden then
    throw "multiple address mode prefixes"
  modify fun st =>
    { st with
      addressModeOverridden := true
      addressMode := if st.addressMode = Size.Int16 then Size.Int32 else Size.Int16 }

/-- `Disassembler.operandSizeOverride`: toggle the operand size, at most once. -/
def operandSizeOverride : DecodeM Unit := do
  if (← get).operandSizeOverridden then
    throw "multiple operand size prefixes"
  modify fun st =>
    { st with
      operandSizeOverridden := true
      operandSize := if st.operandSize = Size.Int16 then Size.Int32 else Size.Int16 }

/-- `Disassembler.repeatType`: record a repeat prefix, at most one per instruction. -/
def repeatType (repeatType : RepeatType) : DecodeM Unit := do
  if (← get).repeatType ≠ RepeatType.None ∨ repeatType = RepeatType.None then
    throw "multiple repeat prefixes"
  modify fun st => { st with repeatType := repeatType }

/-- `Disassembler.locked`: record a LOCK prefix, at most one per instruction. -/
def locked : DecodeM Unit := do
  if (← get).isLocked then
    throw "multiple LOCK prefixes"
  modify fun st => { st with isLocked := true }

/-- `Disassembler.near`: mark a near CALL/RET/JMP variant. -/
def near : DecodeM Unit := do
  if (← get).isNear then
    throw "internal error"
  modify fun st => { st with isNear := true }

/-- `Disassembler.opCode`: record the mnemonic.  The LOCK / REP / REPNE validation
switches in the source inspect `this._opCode` — still `OpCode.Invalid` at this
point (the guard above just checked that) — rather than the `opCode` argument,
so whenever a LOCK or repeat prefix is active the switch falls to its default
and throws, for every mnemonic. -/
def opCode (opCode : OpCode) : DecodeM Unit := do
  let s ← get
  if s.opCode ≠ OpCode.Invalid then
    throw "internal error"
  if s.isLocked then
    match s.opCode with
    | .ADD | .ADC | .AND | .BTC | .BTR | .BTS | .DEC | .INC | .NEG | .NOT
    | .OR | .SBB | .SUB | .XOR | .XCHG => pure ()
    | _ => throw "invalid use of LOCK prefix"
  if s.repeatType = RepeatType.Equal then
    match s.opCode with
    | .INS | .OUTS | .MOVS | .LODS | .STOS | .CMPS | .SCAS => pure ()
    | _ => throw "invalid use of REP/REPE prefix"
  if s.repeatType = RepeatType.NotEqual then
    match s.opCode with
    | .CMPS | .SCAS => pure ()
    | _ => throw "invalid use of REPNE prefix"
  modify fun st => { st with opCode := opCode }

/-- `Disassembler.done`: produce the immutable instruction (the reader field is
cleared by the caller-facing wrapper `disassembleCall`). -/
def done : DecodeM Instruction := do
  let s ← get
  if s.opCode = OpCode.Invalid then
    throw "internal error"
  pure ⟨s.opCode, s.isLocked, s.isNear, s.repeatType, s.operand1, s.operand2, s.operand3⟩

/-- `Disassembler.group1OpCode` (opcodes 80/81/83). -/
def group1OpCode : DecodeM Unit := do
  let modrm ← ensureModrm
  match (modrm >>> 3) &&& 0x7 with
  | 0x0 => opCode OpCode.ADD
  | 0x1 => opCode OpCode.OR
  | 0x2 => opCode OpCode.ADC
  | 0x3 => opCode OpCode.SBB
  | 0x4 => opCode OpCode.AND
  | 0x5 => opCode OpCode.SUB
  | 0x6 => opCode OpCode.XOR
  | 0x7 => opCode OpCode.CMP
  | _ => throw "internal error"

/-- `Disassembler.group2OpCode` (shift group; reg 6 unused). -/
def group2OpCode : DecodeM Unit := do
  let modrm ← ensureModrm
  match (modrm >>> 3) &&& 0x7 with
  | 0x0 => opCode OpCode.ROL
  | 0x1 => opCode OpCode.ROR
  | 0x2 => opCode OpCode.RCL
  | 0x3 => opCode OpCode.RCR
  | 0x4 => opCode OpCode.SHL
  | 0x5 => opCode OpCode.SHR
  | 0x7 => opCode OpCode.SAR
  | _ => throw "internal error"

/-- `Disassembler.group4OpCode` (opcode FE; reg 2-7 unused). -/
def group4OpCode : DecodeM Unit := do
  let modrm ← ensureModrm
  match (modrm >>> 3) &&& 0x7 with
  | 0x0 => opCode OpCode.INC
  | 0x1 => opCode OpCode.DEC
  | _ => throw "internal error"

/-- `Disassembler.group6OpCode` (0F 00; reg 6-7 unused). -/
def group6OpCode : DecodeM Unit := do
  let modrm ← ensureModrm
  match (modrm >>> 3) &&& 0x7 with
  | 0x0 => opCode OpCode.SLDT
  | 0x1 => opCode OpCode.SIDT
  | 0x2 => opCode OpCode.LGDT
  | 0x3 => opCode OpCode.LTR
  | 0x4 => opCode OpCode.VERR
  | 0x5 => opCode OpCode.VERW
  | _ => throw "internal error"

/-- `Disassembler.group8OpCode` (0F BA; reg 0-3 unused). -/
def group8OpCode : DecodeM Unit := do
  let modrm ← ensureModrm
  match (modrm >>> 3) &&& 0x7 with
  | 0x4 => opCode OpCode.BT
  | 0x5 => opCode OpCode.BTS
  | 0x6 => opCode OpCode.BTR
  | 0x7 => opCode OpCode.BTC
  | _ => throw "internal error"

/-- `Disassembler.jumpOpCode`: condition-code index to Jcc mnemonic. -/
def jumpOpCode (index : Nat) : DecodeM Unit := do
  match index with
  | 0x0 => opCode OpCode.JO
  | 0x1 => opCode OpCode.JNO
  | 0x2 => opCode OpCode.JB
  | 0x3 => opCode OpCode.JNB
  | 0x4 => opCode OpCode.JZ
  | 0x5 => opCode OpCode.JNZ
  | 0x6 => opCode OpCode.JBE
  | 0x7 => opCode OpCode.JNBE
  | 0x8 => opCode OpCode.JS
  | 0x9 => opCode OpCode.JNS
  | 0xA => opCode OpCode.JP
  | 0xB => opCode OpCode.JNP
  | 0xC => opCode OpCode.JL
  | 0xD => opCode OpCode.JNL
  | 0xE => opCode OpCode.JLE
  | 0xF => opCode OpCode.JNLE
  | _ => throw "unexpected jump opcode"

/-- `Disassembler.setOpCode`: condition-code index to SETcc mnemonic. -/
def setOpCode (index : Nat) : DecodeM Unit := do
  match index with
  | 0x0 => opCode OpCode.SETO
  | 0x1 => opCode OpCode.SETNO
  | 0x2 => opCode OpCode.SETB
  | 0x3 => opCode OpCode.SETNB
  | 0x4 => opCode OpCode.SETZ
  | 0x5 => opCode OpCode.SETNZ
  | 0x6 => opCode OpCode.SETBE
  | 0x7 => opCode OpCode.SETNBE
  | 0x8 => opCode OpCode.SETS
  | 0x9 => opCode OpCode.SETNS
  | 0xA => opCode OpCode.SETP
  | 0xB => opCode OpCode.SETNP
  | 0xC => opCode OpCode.SETL
  | 0xD => opCode OpCode.SETNL
  | 0xE => opCode OpCode.SETLE
  | 0xF => opCode OpCode.SETNLE
  | _ => throw "unexpected set opcode"

/-- `Disassembler.group3` (opcodes F6/F7; reg 1 unused). -/
def group3 (first : Nat) : DecodeM Instruction := do
  let modrm ← ensureModrm
  match (modrm >>> 3) &&& 0x7 with
  | 0x0 => do
    opCode OpCode.TEST
    modrmOperand (← decodeOperandSize first) OperandFlags.None
    immediateOperand (← decodeOperandSize first)
    done
  | 0x2 => do opCode OpCode.NOT; modrmOperand (← decodeOperandSize first) OperandFlags.None; done
  | 0x3 => do opCode OpCode.NEG; modrmOperand (← decodeOperandSize first) OperandFlags.None; done
  | 0x4 => do opCode OpCode.MUL; modrmOperand (← decodeOperandSize first) OperandFlags.None; done
  | 0x5 => do opCode OpCode.IMUL; modrmOperand (← decodeOperandSize first) OperandFlags.None; done
  | 0x6 => do opCode OpCode.DIV; modrmOperand (← decodeOperandSize first) OperandFlags.None; done
  | 0x7 => do opCode OpCode.IDIV; modrmOperand (← decodeOperandSize first) OperandFlags.None; done
  | _ => throw "internal error"

/-- `Disassembler.group5` (opcode FF; reg 7 unused). -/
def group5 : DecodeM Instruction := do
  let modrm ← ensureModrm
  match (modrm >>> 3) &&& 0x7 with
  | 0x0 => do opCode OpCode.INC; modrmOperand (← get).operandSize OperandFlags.None; done
  | 0x1 => do opCode OpCode.DEC; modrmOperand (← get).operandSize OperandFlags.None; done
  | 0x2 => do near; opCode OpCode.CALL; modrmOperand (← get).operandSize OperandFlags.None; done
  | 0x3 => do opCode OpCode.CALL; modrmOperand (← get).operandSize OperandFlags.None; done
  | 0x4 => do opCode OpCode.JMP; modrmOperand (← get).operandSize OperandFlags.None; done
  | 0x5 => do opCode OpCode.JMP; modrmOperand (← get).operandSize OperandFlags.MustBeMemory; done
  | 0x6 => do opCode OpCode.PUSH; modrmOperand (← get).operandSize OperandFlags.None; done
  | _ => throw "internal error"

/-- `Disassembler.group7` (0F 01; reg 5 and 7 unused). -/
def group7 : DecodeM Instruction := do
  let modrm ← ensureModrm
  match (modrm >>> 3) &&& 0x7 with
  | 0x0 => do opCode OpCode.SGDT; modrmOperand (← get).operandSize OperandFlags.MustBeMemory; done
  | 0x1 => do opCode OpCode.SIDT; modrmOperand (← get).operandSize OperandFlags.MustBeMemory; done
  | 0x2 => do opCode OpCode.LGDT; modrmOperand (← get).operandSize OperandFlags.MustBeMemory; done
  | 0x3 => do opCode OpCode.LIDT; modrmOperand (← get).operandSize OperandFlags.MustBeMemory; done
  | 0x4 => do opCode OpCode.SMSW; modrmOperand Size.Int16 OperandFlags.None; done
  | 0x6 => do opCode OpCode.LMSW; modrmOperand Size.Int16 OperandFlags.None; done
  | _ => throw "internal error"

/-- src/lib/disasm.ts dispatches opcodes D8-DF to `this.escape(first - 0xD8)`, but the
class defines no `escape` method, so reaching these opcodes fails at runtime with a
JavaScript TypeError; modelled as a decode failure. -/
def escape (_index : Nat) : DecodeM Instruction :=
  throw "escape is not a function"

/-- `Disassembler.secondByte`: the two-byte (0F) escape map.  Note the `0xBF` cell,
commented "MOVSX Gv, Ew" in the source, dispatches to `OpCode.BSF`. -/
def secondByte : DecodeM Instruction := do
  let second ← readByte
  match second with
  | 0x00 => do group6OpCode; modrmOperand Size.Int16 OperandFlags.None; done
  | 0x01 => group7
  | 0x02 => do
    opCode OpCode.LAR
    regOperand (← get).operandSize OperandFlags.None
    modrmOperand Size.Int16 OperandFlags.None
    done
  | 0x03 => do
    opCode OpCode.LSL
    regOperand (← get).operandSize OperandFlags.None
    modrmOperand Size.Int16 OperandFlags.None
    done
  | 0x06 => do opCode OpCode.CLTS; done
  | 0x20 => do
    opCode OpCode.MOV
    modrmOperand Size.Int32 OperandFlags.MustBeRegister
    regOperand Size.Int32 OperandFlags.ControlRegister
    done
  | 0x21 => do
    opCode OpCode.MOV
    modrmOperand Size.Int32 OperandFlags.MustBeRegister
    regOperand Size.Int32 OperandFlags.DebugRegister
    done
  | 0x22 => do
    opCode OpCode.MOV
    regOperand Size.Int32 OperandFlags.ControlRegister
    modrmOperand Size.Int32 OperandFlags.MustBeRegister
    done
  | 0x23 => do
    opCode OpCode.MOV
    regOperand Size.Int32 OperandFlags.DebugRegister
    modrmOperand Size.Int32 OperandFlags.MustBeRegister
    done
  | 0x80 | 0x81 | 0x82 | 0x83 | 0x84 | 0x85 | 0x86 | 0x87
  | 0x88 | 0x89 | 0x8A | 0x8B | 0x8C | 0x8D | 0x8E | 0x8F => do
    jumpOpCode (second - 0x80)
    displacementOperand (← get).operandSize
    done
  | 0x90 | 0x91 | 0x92 | 0x93 | 0x94 | 0x95 | 0x96 | 0x97 => do
    setOpCode (second - 0x90)
    modrmOperand Size.Int8 OperandFlags.None
    done
  | 0x98 | 0x99 | 0x9A | 0x9B | 0x9C | 0x9D | 0x9E | 0x9F => do
    setOpCode (second - 0x90)
    done
  | 0xA0 => do opCode OpCode.PUSH; segmentOperand Segment.FS; done
  | 0xA1 => do opCode OpCode.POP; segmentOperand Segment.FS; done
  | 0xA3 => do
    opCode OpCode.BT
    modrmOperand (← get).operandSize OperandFlags.None
    regOperand (← get).operandSize OperandFlags.None
    done
  | 0xA4 => do
    opCode OpCode.SHLD
    modrmOperand (← get).operandSize OperandFlags.None
    regOperand (← get).operandSize OperandFlags.None
    immediateOperand Size.Int8
    done
  | 0xA5 => do
    opCode OpCode.SHLD
    modrmOperand (← get).operandSize OperandFlags.None
    regOperand (← get).operandSize OperandFlags.None
    registerOperand Register.CL
    done
  | 0xA8 => do opCode OpCode.PUSH; segmentOperand Segment.GS; done
  | 0xA9 => do opCode OpCode.POP; segmentOperand Segment.GS; done
  | 0xAB => do
    opCode OpCode.BTS
    modrmOperand (← get).operandSize OperandFlags.None
    regOperand (← get).operandSize OperandFlags.None
    done
  | 0xAC => do
    opCode OpCode.SHRD
    modrmOperand (← get).operandSize OperandFlags.None
    regOperand (← get).operandSize OperandFlags.None
    immediateOperand Size.Int8
    done
  | 0xAD => do
    opCode OpCode.SHRD
    modrmOperand (← get).operandSize OperandFlags.None
    regOperand (← get).operandSize OperandFlags.None
    registerOperand Register.CL
    done
  | 0xAF => do
    opCode OpCode.IMUL
    regOperand (← get).operandSize OperandFlags.None
    modrmOperand (← get).operandSize OperandFlags.None
    done
  | 0xB2 => do
    opCode OpCode.LSS
    regOperand (← get).operandSize OperandFlags.None
    modrmOperand (← get).operandSize OperandFlags.MustBeMemory
    done
  | 0xB3 => do
    opCode OpCode.BTR
    modrmOperand (← get).operandSize OperandFlags.None
    regOperand (← get).operandSize OperandFlags.None
    done
  | 0xB4 => do
    opCode OpCode.LFS
    regOperand (← get).operandSize OperandFlags.None
    modrmOperand (← get).operandSize OperandFlags.MustBeMemory
    done
  | 0xB5 => do
    opCode OpCode.LGS
    regOperand (← get).operandSize OperandFlags.None
    modrmOperand (← get).operandSize OperandFlags.MustBeMemory
    done
  | 0xB6 => do
    opCode OpCode.MOVZX
    regOperand (← get).operandSize OperandFlags.None
    modrmOperand Size.Int8 OperandFlags.None
    done
  | 0xB7 => do
    opCode OpCode.MOVZX
    regOperand (← get).operandSize OperandFlags.None
    modrmOperand Size.Int16 OperandFlags.None
    done
  | 0xBA => do
    group8OpCode
    modrmOperand (← get).operandSize OperandFlags.None
    immediateOperand Size.Int8
    done
  | 0xBB => do
    opCode OpCode.BTC
    modrmOperand (← get).operandSize OperandFlags.None
    regOperand (← get).operandSize OperandFlags.None
    done
  | 0xBC => do
    opCode OpCode.BSF
    regOperand (← get).operandSize OperandFlags.None
    modrmOperand (← get).operandSize OperandFlags.None
    done
  | 0xBD => do
    opCode OpCode.BSR
    regOperand (← get).operandSize OperandFlags.None
    modrmOperand (← get).operandSize OperandFlags.None
    done
  | 0xBE => do
    opCode OpCode.MOVSX
    regOperand (← get).operandSize OperandFlags.None
    modrmOperand Size.Int8 OperandFlags.None
    done
  | 0xBF => do
    opCode OpCode.BSF
    regOperand (← get).operandSize OperandFlags.None
    modrmOperand Size.Int16 OperandFlags.None
    done
  | _ => throw "invalid instruction"

set_option maxHeartbeats 3200000 in
/-- `Disassembler.firstByte`: the one-byte opcode map.  Prefix bytes recurse; the
recursion is driven by a fuel argument large enough that fuel exhaustion is
unreachable before the byte source itself is exhausted (each recursive call first
consumes one byte).  Unallocated cells (0x82, 0xD6, 0xF1 and the default) throw,
and note the `0xE9`/`0xEA`/`0xEB` cells dispatch to `OpCode.JNP`. -/
def firstByte : Nat → DecodeM Instruction
  | 0 => throw "out of fuel"
  | fuel + 1 => do
    let first ← readByte
    match first with
    | 0x00 | 0x01 | 0x02 | 0x03 | 0x04 | 0x05 => do
      opCode OpCode.ADD; arithmeticOperands (first - 0x0); done
    | 0x06 => do opCode OpCode.PUSH; segmentOperand Segment.ES; done
    | 0x07 => do opCode OpCode.POP; segmentOperand Segment.ES; done
    | 0x08 | 0x09 | 0x0A | 0x0B | 0x0C | 0x0D => do
      opCode OpCode.OR; arithmeticOperands (first - 0x8); done
    | 0x0E => do opCode OpCode.PUSH; segmentOperand Segment.CS; done
    | 0x0F => secondByte
    | 0x10 | 0x11 | 0x12 | 0x13 | 0x14 | 0x15 => do
      opCode OpCode.ADC; arithmeticOperands (first - 0x10); done
    | 0x16 => do opCode OpCode.PUSH; segmentOperand Segment.SS; done
    | 0x17 => do opCode OpCode.POP; segmentOperand Segment.SS; done
    | 0x18 | 0x19 | 0x1A | 0x1B | 0x1C | 0x1D => do
      opCode OpCode.SBB; arithmeticOperands (first - 0x18); done
    | 0x1E => do opCode OpCode.PUSH; segmentOperand Segment.DS; done
    | 0x1F => do opCode OpCode.POP; segmentOperand Segment.DS; done
    | 0x20 | 0x21 | 0x22 | 0x23 | 0x24 | 0x25 => do
      opCode OpCode.AND; arithmeticOperands (first - 0x20); done
    | 0x26 => do segmentOverride Segment.ES; firstByte fuel
    | 0x27 => do opCode OpCode.DAA; done
    | 0x28 | 0x29 | 0x2A | 0x2B | 0x2C | 0x2D => do
      opCode OpCode.SUB; arithmeticOperands (first - 0x28); done
    | 0x2E => do segmentOverride Segment.CS; firstByte fuel
    | 0x2F => do opCode OpCode.DAS; done
    | 0x30 | 0x31 | 0x32 | 0x33 | 0x34 | 0x35 => do
      opCode OpCode.XOR; arithmeticOperands (first - 0x30); done
    | 0x36 => do segmentOverride Segment.SS; firstByte fuel
    | 0x37 => do opCode OpCode.AAA; done
    | 0x38 | 0x39 | 0x3A | 0x3B | 0x3C | 0x3D => do
      opCode OpCode.CMP; arithmeticOperands (first - 0x38); done
    | 0x3E => do segmentOverride Segment.DS; firstByte fuel
    | 0x3F => do opCode OpCode.AAS; done
    | 0x40 | 0x41 | 0x42 | 0x43 | 0x44 | 0x45 | 0x46 | 0x47 => do
      opCode OpCode.INC; encodedRegisterOperand (first - 0x40) (← get).operandSize; done
    | 0x48 | 0x49 | 0x4A | 0x4B | 0x4C | 0x4D | 0x4E | 0x4F => do
      opCode OpCode.DEC; encodedRegisterOperand (first - 0x48) (← get).operandSize; done
    | 0x50 | 0x51 | 0x52 | 0x53 | 0x54 | 0x55 | 0x56 | 0x57 => do
      opCode OpCode.PUSH; encodedRegisterOperand (first - 0x50) (← get).operandSize; done
    | 0x58 | 0x59 | 0x5A | 0x5B | 0x5C | 0x5D | 0x5E | 0x5F => do
      opCode OpCode.POP; encodedRegisterOperand (first - 0x58) (← get).operandSize; done
    | 0x60 => do opCode OpCode.PUSHA; done
    | 0x61 => do opCode OpCode.POPA; done
    | 0x62 => do
      opCode OpCode.BOUND
      regOperand (← get).operandSize OperandFlags.None
      modrmOperand (← get).operandSize OperandFlags.MustBeMemory
      done
    | 0x63 => do
      opCode OpCode.ARPL
      modrmOperand Size.Int16 OperandFlags.None
      regOperand Size.Int16 OperandFlags.None
      done
    | 0x64 => do segmentOverride Segment.FS; firstByte fuel
    | 0x65 => do segmentOverride Segment.GS; firstByte fuel
    | 0x66 => do operandSizeOverride; firstByte fuel
    | 0x67 => do addressModeOverride; firstByte fuel
    | 0x68 => do opCode OpCode.PUSH; immediateOperand (← get).operandSize; done
    | 0x69 => do
      opCode OpCode.IMUL
      regOperand (← get).operandSize OperandFlags.None
      modrmOperand (← get).operandSize OperandFlags.None
      immediateOperand (← get).operandSize
      done
    | 0x6A => do opCode OpCode.PUSH; immediateOperand Size.Int8; done
    | 0x6B => do
      opCode OpCode.IMUL
      regOperand (← get).operandSize OperandFlags.None
      modrmOperand (← get).operandSize OperandFlags.None
      immediateOperand Size.Int8
      done
    | 0x6C | 0x6D => do
      opCode OpCode.INS
      esdiOperand (← decodeOperandSize first)
      registerOperand Register.DX
      done
    | 0x6E | 0x6F => do
      opCode OpCode.OUTS
      registerOperand Register.DX
      dssiOperand (← decodeOperandSize first)
      done
    | 0x70 | 0x71 | 0x72 | 0x73 | 0x74 | 0x75 | 0x76 | 0x77
    | 0x78 | 0x79 | 0x7A | 0x7B | 0x7C | 0x7D | 0x7E | 0x7F => do
      jumpOpCode (first - 0x70); displacementOperand Size.Int8; done
    | 0x80 | 0x81 => do
      group1OpCode
      modrmOperand (← decodeOperandSize first) OperandFlags.None
      immediateOperand (← decodeOperandSize first)
      done
    | 0x82 => throw "invalid instruction"
    | 0x83 => do
      group1OpCode
      modrmOperand (← get).operandSize OperandFlags.None
      immediateOperand Size.Int8
      done
    | 0x84 | 0x85 => do opCode OpCode.TEST; arithmeticOperands (first - 0x84); done
    | 0x86 | 0x87 => do opCode OpCode.XCHG; arithmeticOperands (first - 0x86); done
    | 0x88 | 0x89 | 0x8A | 0x8B => do opCode OpCode.MOV; arithmeticOperands (first - 0x88); done
    | 0x8C => do
      opCode OpCode.MOV
      modrmOperand (← get).operandSize OperandFlags.None
      regOperand Size.Int16 OperandFlags.Segment
      done
    | 0x8D => do
      opCode OpCode.LEA
      regOperand (← get).operandSize OperandFlags.None
      modrmOperand (← get).operandSize
        (OperandFlags.MustBeMemory ||| OperandFlags.DontDereference)
      done
    | 0x8E => do
      opCode OpCode.MOV
      regOperand Size.Int16 OperandFlags.Segment
      modrmOperand Size.Int16 OperandFlags.None
      done
    | 0x8F => do opCode OpCode.POP; modrmOperand (← get).operandSize OperandFlags.None; done
    | 0x90 => do opCode OpCode.NOP; done
    | 0x91 | 0x92 | 0x93 | 0x94 | 0x95 | 0x96 | 0x97 => do
      opCode OpCode.XCHG
      encodedRegisterOperand 0 (← get).operandSize
      encodedRegisterOperand (first - 0x90) (← get).operandSize
      done
    | 0x98 => do opCode OpCode.CBW; done
    | 0x99 => do opCode OpCode.CWD; done
    | 0x9A => do opCode OpCode.CALL; callOperand OperandFlags.Segment; done
    | 0x9B => do opCode OpCode.WAIT; done
    | 0x9C => do opCode OpCode.PUSHF; done
    | 0x9D => do opCode OpCode.POPF; done
    | 0x9E => do opCode OpCode.SAHF; done
    | 0x9F => do opCode OpCode.LAHF; done
    | 0xA0 | 0xA1 => do
      opCode OpCode.MOV
      encodedRegisterOperand 0 (← decodeOperandSize first)
      offsetOperand (← decodeOperandSize first)
      done
    | 0xA2 | 0xA3 => do
      opCode OpCode.MOV
      offsetOperand (← decodeOperandSize first)
      encodedRegisterOperand 0 (← decodeOperandSize first)
      done
    | 0xA4 | 0xA5 => do
      opCode OpCode.MOVS
      dssiOperand (← decodeOperandSize first)
      esdiOperand (← decodeOperandSize first)
      done
    | 0xA6 | 0xA7 => do
      opCode OpCode.CMPS
      dssiOperand (← decodeOperandSize first)
      esdiOperand (← decodeOperandSize first)
      done
    | 0xA8 | 0xA9 => do
      opCode OpCode.TEST
      encodedRegisterOperand 0 (← decodeOperandSize first)
      immediateOperand (← decodeOperandSize first)
      done
    | 0xAA | 0xAB => do
      opCode OpCode.STOS
      esdiOperand (← decodeOperandSize first)
      encodedRegisterOperand 0 (← decodeOperandSize first)
      done
    | 0xAC | 0xAD => do
      opCode OpCode.LODS
      encodedRegisterOperand 0 (← decodeOperandSize first)
      dssiOperand (← decodeOperandSize first)
      done
    | 0xAE | 0xAF => do
      opCode OpCode.SCAS
      encodedRegisterOperand 0 (← decodeOperandSize first)
      dssiOperand (← decodeOperandSize first)
      done
    | 0xB0 | 0xB1 | 0xB2 | 0xB3 | 0xB4 | 0xB5 | 0xB6 | 0xB7 => do
      opCode OpCode.MOV
      encodedRegisterOperand (first - 0xB0) Size.Int8
      immediateOperand Size.Int8
      done
    | 0xB8 | 0xB9 | 0xBA | 0xBB | 0xBC | 0xBD | 0xBE | 0xBF => do
      opCode OpCode.MOV
      encodedRegisterOperand (first - 0xB8) (← get).operandSize
      immediateOperand (← get).operandSize
      done
    | 0xC0 | 0xC1 => do
      group2OpCode
      modrmOperand (← decodeOperandSize first) OperandFlags.None
      immediateOperand Size.Int8
      done
    | 0xC2 => do near; opCode OpCode.RET; immediateOperand Size.Int16; done
    | 0xC3 => do near; opCode OpCode.RET; done
    | 0xC4 => do
      opCode OpCode.LES
      regOperand (← get).operandSize OperandFlags.None
      modrmOperand (← get).operandSize OperandFlags.MustBeMemory
      done
    | 0xC5 => do
      opCode OpCode.LDS
      regOperand (← get).operandSize OperandFlags.None
      modrmOperand (← get).operandSize OperandFlags.MustBeMemory
      done
    | 0xC6 | 0xC7 => do
      opCode OpCode.MOV
      modrmOperand (← decodeOperandSize first) OperandFlags.None
      immediateOperand (← decodeOperandSize first)
      done
    | 0xC8 => do
      opCode OpCode.ENTER
      immediateOperand Size.Int16
      immediateOperand Size.Int8
      done
    | 0xC9 => do opCode OpCode.LEAVE; done
    | 0xCA => do opCode OpCode.RET; immediateOperand Size.Int16; done
    | 0xCB => do opCode OpCode.RET; done
    | 0xCC => do opCode OpCode.INT; literalOperand 3; done
    | 0xCD => do opCode OpCode.INT; immediateOperand Size.Int8; done
    | 0xCE => do opCode OpCode.INTO; done
    | 0xCF => do opCode OpCode.IRET; done
    | 0xD0 | 0xD1 => do
      group2OpCode
      modrmOperand (← decodeOperandSize first) OperandFlags.None
      literalOperand 1
      done
    | 0xD2 | 0xD3 => do
      group2OpCode
      modrmOperand (← decodeOperandSize first) OperandFlags.None
      registerOperand Register.CL
      done
    | 0xD4 => do opCode OpCode.AAM; done
    | 0xD5 => do opCode OpCode.AAD; done
    | 0xD6 => throw "invalid instruction"
    | 0xD7 => do opCode OpCode.XLAT; done
    | 0xD8 | 0xD9 | 0xDA | 0xDB | 0xDC | 0xDD | 0xDE | 0xDF => escape (first - 0xD8)
    | 0xE0 => do opCode OpCode.LOOPNE; displacementOperand Size.Int8; done
    | 0xE1 => do opCode OpCode.LOOPE; displacementOperand Size.Int8; done
    | 0xE2 => do opCode OpCode.LOOP; displacementOperand Size.Int8; done
    | 0xE3 => do opCode OpCode.JCXZ; displacementOperand Size.Int8; done
    | 0xE4 | 0xE5 => do
      opCode OpCode.IN
      encodedRegisterOperand 0 (← decodeOperandSize first)
      immediateOperand Size.Int8
      done
    | 0xE6 | 0xE7 => do
      opCode OpCode.OUT
      immediateOperand Size.Int8
      encodedRegisterOperand 0 (← decodeOperandSize first)
      done
    | 0xE8 => do opCode OpCode.CALL; callOperand OperandFlags.None; done
    | 0xE9 => do opCode OpCode.JNP; displacementOperand (← get).operandSize; done
    | 0xEA => do opCode OpCode.JNP; callOperand OperandFlags.Segment; done
    | 0xEB => do opCode OpCode.JNP; displacementOperand Size.Int8; done
    | 0xEC | 0xED => do
      opCode OpCode.IN
      encodedRegisterOperand 0 (← decodeOperandSize first)
      registerOperand Register.DX
      done
    | 0xEE | 0xEF => do
      opCode OpCode.OUT
      registerOperand Register.DX
      encodedRegisterOperand 0 (← decodeOperandSize first)
      done
    | 0xF0 => do locked; firstByte fuel
    | 0xF1 => throw "invalid instruction"
    | 0xF2 => do repeatType RepeatType.NotEqual; firstByte fuel
    | 0xF3 => do repeatType RepeatType.Equal; firstByte fuel
    | 0xF4 => do opCode OpCode.HLT; done
    | 0xF5 => do opCode OpCode.CMC; done
    | 0xF6 | 0xF7 => group3 first
    | 0xF8 => do opCode OpCode.CLC; done
    | 0xF9 => do opCode OpCode.STC; done
    | 0xFA => do opCode OpCode.CLI; done
    | 0xFB => do opCode OpCode.STI; done
    | 0xFC => do opCode OpCode.CLD; done
    | 0xFD => do opCode OpCode.STD; done
    | 0xFE => do group4OpCode; modrmOperand Size.Int8 OperandFlags.None; done
    | 0xFF => group5
    | _ => throw "invalid instruction"

/-- `Disassembler.reset`: the per-instruction initial state (default sizes from the
construction parameter, no overrides, no prefixes, empty operand slots). -/
def initState (segmentAddressMode : Size) (input : List Nat) : DecodeState :=
  ⟨input, segmentAddressMode, segmentAddressMode, false, false, Segment.None, 0, false,
   OpCode.Invalid, false, RepeatType.None, false, 0, none, none, none⟩

/-- One full decode run over the given bytes: the constructor validation of the
default size, then `reset` followed by `firstByte`.  The fuel `input.length + 1`
makes fuel exhaustion unreachable: every `firstByte` recursion first consumes a
byte, so the source runs dry (a truncation failure) before the fuel does. -/
def disassemble (segmentAddressMode : Size) (input : List Nat) : Except String Instruction :=
  if segmentAddressMode ≠ Size.Int16 ∧ segmentAddressMode ≠ Size.Int32 then
    .error "invalid default size"
  else
    match (firstByte (input.length + 1)).run (initState segmentAddressMode input) with
    | .ok (instruction, _) => .ok instruction
    | .error e => .error e

/-- `Disassembler.disassemble` as seen across calls on one instance.  The flag models
whether the persistent `_reader` field is non-null at entry: `reset` throws
"internal error" when it is; `done` clears it on the success path, but no error
path clears it, so a failed call leaves it set for all later calls. -/
def disassembleCall (readerPresent : Bool) (segmentAddressMode : Size) (input : List Nat) :
    Except String Instruction × Bool :=
  if readerPresent then
    (.error "internal error", true)
  else
    match disassemble segmentAddressMode input with
    | .ok instruction => (.ok instruction, false)
    | .error e => (.error e, true)

/-- C1: evaluating the decoder at the failing input F0 01 00 (defaultSize Int32).
The claim says this decodes to ADD [EAX], EAX with the locked flag set; the code
instead raises "invalid use of LOCK prefix", because the LOCK validation in
`opCode` switches on the accumulated opcode field (still Invalid) rather than on
the opcode being recorded, so every LOCK-prefixed instruction raises. -/
theorem lock_add_invalid_use_of_lock :
    disassemble Size.Int32 [0xF0, 0x01, 0x00] = .error "invalid use of LOCK prefix" := rfl

/-- C2: evaluating the decoder at the failing input F2 A6.  The claim says this
decodes to CMPS with repeat NotEqual; the code instead raises "invalid use of
REPNE prefix", because the REPNE validation in `opCode` switches on the
accumulated opcode field (still Invalid) rather than on the opcode being
recorded, so every REPNE-prefixed instruction raises. -/
theorem repne_cmps_invalid_use_of_repne :
    disassemble Size.Int32 [0xF2, 0xA6] = .error "invalid use of REPNE prefix" := rfl

/-- C3: evaluating the decoder at the failing input EB FE.  The claim says this
decodes to JMP with an 8-bit displacement of sign-extended value -2; the code
returns mnemonic JNP (the 0xEB cell dispatches `OpCode.JNP`) and displacement
value -126, since `readImmediate` negates the magnitude of the low seven bits
(sign-magnitude) instead of sign-extending the byte 0xFE. -/
theorem jmp_short_eb_fe_decodes_jnp_minus126 :
    disassemble Size.Int32 [0xEB, 0xFE] =
      .ok ⟨OpCode.JNP, false, false, RepeatType.None,
        some (.immediate (-126) Size.Int8), none, none⟩ := rfl

/-- C4: evaluating the decoder at the failing input 8D 04 19 (defaultSize Int32).
The claim says the second operand is the effective address ECX + EBX; the code
returns just register ECX (register number 5), because `sib` only builds the
scaled-index operand when the scale field is nonzero, dropping index EBX at
scale factor 1.  The DontDereference part holds: no Indirect wrapper appears. -/
theorem lea_8d_04_19_drops_sib_index :
    disassemble Size.Int32 [0x8D, 0x04, 0x19] =
      .ok ⟨OpCode.LEA, false, false, RepeatType.None,
        some (.register Register.EAX), some (.register Register.ECX), none⟩ := rfl

/-- C5: evaluating the decoder at the failing input 0F BF C3.  The claim says the
two-byte escape 0F BF decodes as MOVSX; the 0xBF cell of `secondByte`, though
commented "MOVSX Gv, Ew", dispatches `OpCode.BSF`, so the result is BSF EAX, BX. -/
theorem escape_0f_bf_decodes_bsf :
    disassemble Size.Int32 [0x0F, 0xBF, 0xC3] =
      .ok ⟨OpCode.BSF, false, false, RepeatType.None,
        some (.register Register.EAX), some (.register Register.BX), none⟩ := rfl

/-- C6 counterexample: with SIB base field 5, ModR/M mod 0 and scale field 0
(input 8B 04 0D followed by four displacement bytes), the claim says the decoder
reads a 32-bit displacement as the substitute base; the code raises
"invalid sib byte" because scale 0 reaches the default arm of the scale switch. -/
theorem sib_base5_scale0_raises :
    disassemble Size.Int32 [0x8B, 0x04, 0x0D, 0x78, 0x56, 0x34, 0x12]
      = .error "invalid sib byte" := rfl

/-- C6 amended: in 32-bit address mode with SIB base field 5 and ModR/M mod 0
(MOV 8B 04 with SIB bytes 0D/4D/8D/CD: scale 0/1/2/3, index ECX, base 5):
scale 1 reads an Int32-tagged displacement that replaces the base, scale 2 reads
an 8-bit displacement combined with base EBP, and scales 0 and 3 raise
"invalid sib byte"; no other scale value exists. -/
theorem sib_base5_scale_behaviour :
    disassemble Size.Int32 [0x8B, 0x04, 0x0D, 0x78, 0x56] = .error "invalid sib byte"
    ∧ disassemble Size.Int32 [0x8B, 0x04, 0x4D, 0x78, 0x56] =
        .ok ⟨OpCode.MOV, false, false, RepeatType.None, some (.register Register.EAX),
          some (.indirect (.addition (.scale (.register Register.ECX) 2)
            (.immediate 22136 Size.Int32)) Size.Int32 Segment.None), none⟩
    ∧ disassemble Size.Int32 [0x8B, 0x04, 0x8D, 0x10] =
        .ok ⟨OpCode.MOV, false, false, RepeatType.None, some (.register Register.EAX),
          some (.indirect (.addition (.scale (.register Register.ECX) 4)
            (.addition (.register Register.EBP) (.immediate 16 Size.Int8)))
            Size.Int32 Segment.None), none⟩
    ∧ disassemble Size.Int32 [0x8B, 0x04, 0xCD] = .error "invalid sib byte" :=
  ⟨rfl, rfl, rfl, rfl⟩

/-- C7 counterexample: presenting the ES segment-override prefix twice (26 26 90)
raises the message "invalid segment override", which does not have the claimed
form "multiple ... prefixes" (it does not even start with "multiple"). -/
theorem duplicate_segment_override_not_multiple_message :
    disassemble Size.Int32 [0x26, 0x26, 0x90] = .error "invalid segment override"
    ∧ "invalid segment override".data.take 8 ≠ "multiple".data :=
  ⟨rfl, by decide⟩

/-- C7 amended: duplicated operand-size, address-size, LOCK and repeat prefixes
raise "multiple ... prefixes" messages, while a second segment-override prefix
(same or different segment) raises "invalid segment override". -/
theorem duplicate_prefix_messages :
    disassemble Size.Int32 [0x66, 0x66, 0x90] = .error "multiple operand size prefixes"
    ∧ disassemble Size.Int32 [0x67, 0x67, 0x90] = .error "multiple address mode prefixes"
    ∧ disassemble Size.Int32 [0xF0, 0xF0, 0x90] = .error "multiple LOCK prefixes"
    ∧ disassemble Size.Int32 [0xF2, 0xF2, 0x90] = .error "multiple repeat prefixes"
    ∧ disassemble Size.Int32 [0xF3, 0xF3, 0x90] = .error "multiple repeat prefixes"
    ∧ disassemble Size.Int32 [0xF2, 0xF3, 0x90] = .error "multiple repeat prefixes"
    ∧ disassemble Size.Int32 [0x26, 0x2E, 0x90] = .error "invalid segment override" :=
  ⟨rfl, rfl, rfl, rfl, rfl, rfl, rfl⟩

/-- C8 counterexample: after a call that raised a decode error (input D6, an
unallocated opcode), a further disassemble call on the same instance with the
fresh input 90 raises "internal error" from reset instead of decoding NOP —
even though a fresh instance decodes 90 to NOP. -/
theorem reuse_after_error_internal_error :
    (disassembleCall false Size.Int32 [0xD6]).1 = .error "invalid instruction"
    ∧ (disassembleCall (disassembleCall false Size.Int32 [0xD6]).2 Size.Int32 [0x90]).1
        = .error "internal error"
    ∧ disassemble Size.Int32 [0x90]
        = .ok ⟨OpCode.NOP, false, false, RepeatType.None, none, none, none⟩ :=
  ⟨rfl, rfl, rfl⟩

/-- C8 amended: a fresh or successfully-used instance decodes each input
independently of earlier calls (the first call behaves as a standalone decode,
and after a successful call the next call behaves as on a fresh instance), but
once a call raises a decode error the reader field is never cleared, so every
subsequent call on that instance raises "internal error". -/
theorem instance_reuse_behaviour (segmentAddressMode : Size) (input₁ input₂ : List Nat) :
    (disassembleCall false segmentAddressMode input₁).1 = disassemble segmentAddressMode input₁
    ∧ disassembleCall (disassembleCall false segmentAddressMode input₁).2
        segmentAddressMode input₂ =
      match disassemble segmentAddressMode input₁ with
      | .ok _ => disassembleCall false segmentAddressMode input₂
      | .error _ => (.error "internal error", true) := by
  cases h : disassemble segmentAddressMode input₁ <;> simp [disassembleCall, h]

/-- C9: the input 66 03 C3 (defaultSize Int32) decodes to ADD AX, BX — the 66
prefix toggles the effective operand size to Int16 — and register decoding maps
ModR/M index i at size s to register number i * 3 + s. -/
theorem add_ax_bx_and_register_mapping :
    disassemble Size.Int32 [0x66, 0x03, 0xC3] =
      .ok ⟨OpCode.ADD, false, false, RepeatType.None,
        some (.register Register.AX), some (.register Register.BX), none⟩
    ∧ ∀ (i : Fin 8) (s : Size),
        decodeRegister i.val s = .ok (.register (i.val * 3 + s.toNat)) := by
  refine ⟨rfl, ?_⟩
  intro i s
  fin_cases i <;> cases s <;> rfl

/-- C10: `RegisterOperand.getRegister` fails with "invalid register" exactly when
its argument is below 0 (`Register.AL`) or above 36 (`Register.Invalid`); in
particular the sentinel value 36 itself is accepted and yields a register operand. -/
theorem getRegister_range_check :
    (∀ reg : Int,
      RegisterOperand.getRegister reg = .error "invalid register" ↔ reg < 0 ∨ reg > 36)
    ∧ RegisterOperand.getRegister 36 = .ok (.register 36) := by
  refine ⟨?_, rfl⟩
  intro reg
  unfold RegisterOperand.getRegister
  split <;> rename_i h <;> simp [h]

end Disasm
